import Mathlib

/-!
Verification of the Microsoft 365 collaboration provider
(`src/amplifier_module_tool_m365/providers/m365.py`).

The provider is a thin adapter from a generic collaboration interface to
Microsoft Graph.  We give a shallow embedding: every vendor interaction is
an explicit oracle argument (responses as data, HTTP POST as a function),
and Python-specific semantics (truthiness of `None`/`""`, `x or d`,
`str.split`, `str.strip`, `dict` update, `str.encode("utf-8")`) are
modelled by small executable helpers.
-/

deriving instance DecidableEq for Except

namespace M365

/-! ### Python semantics helpers -/

/-- Python truthiness test `not x` for `x : str | None`: `None` and `""` are falsy. -/
def pyFalsy : Option String → Bool
  | none => true
  | some s => s == ""

/-- Python truthiness test `if x:` for `x : str | None`. -/
def pyTruthy (o : Option String) : Bool := !(pyFalsy o)

/-- Python `x or d` for `x : str | None` and a string default `d`. -/
def pyOr : Option String → String → String
  | none, d => d
  | some s, d => if s == "" then d else s

/-- Python `x or y` for two optional strings (`user.mail or user.user_principal_name`). -/
def pyOrOpt : Option String → Option String → Option String
  | none, y => y
  | some s, y => if s == "" then y else some s

/-- Python whitespace (ASCII), as stripped by `str.strip()`. -/
def pyIsSpace (c : Char) : Bool :=
  c == ' ' || c == '\t' || c == '\n' || c == '\r' || c == '\x0b' || c == '\x0c'

/-- Python `str.strip()` on a character list. -/
def pyStripChars (l : List Char) : List Char :=
  ((l.dropWhile pyIsSpace).reverse.dropWhile pyIsSpace).reverse

/-- Python `str.strip()`. -/
def pyStrip (s : String) : String := String.mk (pyStripChars s.data)

/-- Python `str.split(sep)` for a one-character separator, on character lists.
`[]` on input chars never produces an empty segment list: `"".split(",") == [""]`. -/
def pySplitChars (sep : Char) (l : List Char) : List (List Char) :=
  l.foldr
    (fun c acc =>
      match acc with
      | [] => [[c]]
      | seg :: segs => if c == sep then [] :: seg :: segs else (c :: seg) :: segs)
    [[]]

/-- Python `s.split(sep)` for a one-character separator. -/
def pySplit (sep : Char) (s : String) : List String :=
  (pySplitChars sep s.data).map String.mk

/-- Python `pair.split("=", 1)` guarded by `"=" in pair`: split at the first
`'='` only, `none` when the pair contains no `'='`. -/
def pySplitEq1 (s : String) : Option (String × String) :=
  match s.data.span (fun c => !(c == '=')) with
  | (_, []) => none
  | (nm, _ :: url) => some (String.mk nm, String.mk url)

/-- Python `dict` assignment `d[k] = v` on an insertion-ordered association
list: an existing key keeps its position and receives the new value, a new
key is appended at the end. -/
def dictSet : List (String × String) → String → String → List (String × String)
  | [], k, v => [(k, v)]
  | (k1, v1) :: rest, k, v =>
    if k1 == k then (k, v) :: rest else (k1, v1) :: dictSet rest k v

/-- Python `d.get(k)` on an insertion-ordered association list. -/
def dictGet : List (String × String) → String → Option String
  | [], _ => none
  | (k1, v1) :: rest, k => if k1 == k then some v1 else dictGet rest k

/-- Python `bytes` values, as lists of byte values. -/
abbrev Bytes := List Nat

/-- UTF-8 encoding of one code point, as byte values. -/
def utf8Bytes (n : Nat) : List Nat :=
  if n < 0x80 then [n]
  else if n < 0x800 then [0xC0 + n / 0x40, 0x80 + n % 0x40]
  else if n < 0x10000 then
    [0xE0 + n / 0x1000, 0x80 + n / 0x40 % 0x40, 0x80 + n % 0x40]
  else
    [0xF0 + n / 0x40000, 0x80 + n / 0x1000 % 0x40, 0x80 + n / 0x40 % 0x40,
     0x80 + n % 0x40]

/-- Python `s.encode("utf-8")`. -/
def pyEncodeUtf8 (s : String) : Bytes := s.data.flatMap (fun c => utf8Bytes c.toNat)

/-! ### Raw vendor response shapes (Microsoft Graph SDK models)

Every field the source reads from a vendor object is optional in the SDK,
so each is an `Option` here.  A Graph collection response carries an
optional `value` list (`result.value or []` in the source). -/

structure GraphResponse (α : Type) where
  value : Option (List α)
deriving DecidableEq

structure RawUser where
  id : Option String
  display_name : Option String
  user_principal_name : Option String
  mail : Option String
  department : Option String
deriving DecidableEq

structure RawGroup where
  id : Option String
  display_name : Option String
deriving DecidableEq

structure RawChannel where
  id : Option String
  display_name : Option String
  description : Option String
deriving DecidableEq

structure RawFromUser where
  display_name : Option String
deriving DecidableEq

structure RawFrom where
  user : Option RawFromUser
deriving DecidableEq

structure RawBody where
  content : Option String
deriving DecidableEq

structure RawMessage where
  id : Option String
  body : Option RawBody
  from_ : Option RawFrom
  created_date_time : Option String
deriving DecidableEq

structure RawSite where
  id : Option String
deriving DecidableEq

structure RawDriveItem where
  id : Option String
  name : Option String
  web_url : Option String
  size : Option Int
  folder : Option Unit
deriving DecidableEq

structure RawTask where
  id : Option String
  title : Option String
  percent_complete : Option Int
  due_date_time : Option String
deriving DecidableEq

/-! ### Domain records (`amplifier_module_tool_collab_core`)

Python fields are untyped, so a field that a call site may fill with `None`
is an `Option` here; `none` represents Python `None`. -/

structure User where
  id : Option String
  display_name : String
  email : Option String
  department : Option String
deriving DecidableEq

structure Channel where
  id : Option String
  name : String
  description : Option String
  team_id : String
  team_name : Option String
deriving DecidableEq

structure Message where
  id : Option String
  content : Option String
  sender : String
  timestamp : String
  channel_id : String
deriving DecidableEq

structure Document where
  id : Option String
  name : String
  path : String
  web_url : Option String
  size : Option Int
  is_folder : Bool
deriving DecidableEq

structure Task where
  id : Option String
  title : String
  status : String
  due_date : Option String
deriving DecidableEq

/-- The distinct `raise ValueError(...)` sites of the provider, with the data
interpolated into each message.  The spec's taxonomy maps `missingEnvVars` to
`ConfigurationError`, `teamIdRequired` to `InvalidArgumentError`,
`userNotFound` / `noWebhookConfigured` / `noSitesAvailable` / `siteHasNoId`
to `NotFoundError`, and `noUsersAvailable` to `NoUsersAvailableError`. -/
inductive M365Error where
  | missingEnvVars (missing : List String)
  | userNotFound (user_id : String)
  | teamIdRequired
  | noWebhookConfigured (channel : String) (available : List String)
  | noSitesAvailable
  | siteHasNoId
  | noUsersAvailable
deriving DecidableEq

/-! ### Configuration (`M365Config.from_env`, lines 39-74) -/

structure M365Config where
  tenant_id : String
  client_id : String
  client_secret : String
  webhooks : List (String × String)
deriving DecidableEq

/-- `os.environ`, as a lookup function (`os.environ.get`). -/
abbrev Env := String → Option String

/-- Lines 60-67: parse `"name1=url1,name2=url2,..."` into the webhook dict.
Entries without `'='` are skipped, name and url are stripped, assignment into
the dict makes the last occurrence of a name win. -/
def parseWebhooks (webhook_str : String) : List (String × String) :=
  if webhook_str == "" then []
  else
    (pySplit ',' webhook_str).foldl
      (fun d pair =>
        match pySplitEq1 pair with
        | none => d
        | some (name, url) => dictSet d (pyStrip name) (pyStrip url))
      []

/-- Lines 39-74: load the configuration from the environment.  When any of
the three required variables is falsy, fail listing every falsy one (in the
fixed dict order of the source). -/
def M365Config.from_env (env : Env) : Except M365Error M365Config :=
  let tenant_id := env "M365_TENANT_ID"
  let client_id := env "M365_CLIENT_ID"
  let client_secret := env "M365_CLIENT_SECRET"
  if pyFalsy tenant_id || pyFalsy client_id || pyFalsy client_secret then
    .error (.missingEnvVars
      ((([("M365_TENANT_ID", tenant_id), ("M365_CLIENT_ID", client_id),
          ("M365_CLIENT_SECRET", client_secret)].filter
            (fun kv => pyFalsy kv.2)).map (fun kv => kv.1))))
  else
    .ok { tenant_id := (env "M365_TENANT_ID").getD ""
          client_id := (env "M365_CLIENT_ID").getD ""
          client_secret := (env "M365_CLIENT_SECRET").getD ""
          webhooks := parseWebhooks ((env "M365_TEAMS_WEBHOOKS").getD "") }

/-- The credential triple handed to `ClientSecretCredential` (lines 87-91). -/
structure Credential where
  tenant_id : String
  client_id : String
  client_secret : String
deriving DecidableEq

structure M365Provider where
  config : M365Config
  credential : Credential
deriving DecidableEq

/-- `M365Provider.__init__` (lines 80-92): the optional `config` dict argument
is accepted but never read; the configuration always comes from the
environment via `M365Config.from_env`. -/
def M365Provider.init (config : Option (List (String × String))) (env : Env) :
    Except M365Error M365Provider :=
  (M365Config.from_env env).map (fun cfg =>
    { config := cfg
      credential := { tenant_id := cfg.tenant_id, client_id := cfg.client_id
                      client_secret := cfg.client_secret } })

/-! ### Users (lines 102-133) -/

def mkUser (u : RawUser) : User :=
  { id := some (pyOr u.id "")
    display_name := pyOr u.display_name ""
    email := pyOrOpt u.mail u.user_principal_name
    department := u.department }

/-- `list_users` (lines 102-121); the oracle is the users query keyed by `top`. -/
def list_users (fetch : Nat → GraphResponse RawUser) (limit : Nat) : List User :=
  ((fetch limit).value.getD []).map mkUser

/-- `get_user` (lines 123-133); `none` from the oracle is a falsy vendor reply. -/
def get_user (fetch : String → Option RawUser) (user_id : String) :
    Except M365Error User :=
  match fetch user_id with
  | none => .error (.userNotFound user_id)
  | some u => .ok (mkUser u)

/-! ### Channels (lines 139-187) -/

/-- The Teams-side vendor surface used by `list_channels`.  Both calls may
raise a transport exception, modelled as `Except Unit`. -/
structure TeamsGraph where
  groups_team_filtered : Except Unit (GraphResponse RawGroup)
  channels_of : String → Except Unit (GraphResponse RawChannel)

def mkChannel (team_id : String) (team_name : Option String) (ch : RawChannel) :
    Channel :=
  { id := some (pyOr ch.id "")
    name := pyOr ch.display_name ""
    description := ch.description
    team_id := team_id
    team_name := team_name }

/-- One iteration of the aggregation loop (lines 168-185): the whole `try`
body; a falsy team id is a `continue`, a raising channels call is swallowed
by `except Exception: continue`. -/
def perTeamChannels (channels_of : String → Except Unit (GraphResponse RawChannel))
    (team : RawGroup) : List Channel :=
  if pyFalsy team.id then []
  else
    match channels_of (pyOr team.id "") with
    | .error _ => []
    | .ok resp => (resp.value.getD []).map (mkChannel (pyOr team.id "") team.display_name)

/-- The `for team in (teams.value or [])[:5]` loop (lines 166-185), with its
explicit `all_channels` accumulator. -/
def listChannelsLoop (channels_of : String → Except Unit (GraphResponse RawChannel)) :
    List RawGroup → List Channel → List Channel
  | [], acc => acc
  | team :: rest, acc => listChannelsLoop channels_of rest (acc ++ perTeamChannels channels_of team)

/-- `list_channels` (lines 139-187). -/
def list_channels (g : TeamsGraph) (team_id : Option String) :
    Except Unit (List Channel) :=
  if pyTruthy team_id then
    match g.channels_of (pyOr team_id "") with
    | .error e => .error e
    | .ok resp => .ok ((resp.value.getD []).map (mkChannel (pyOr team_id "") none))
  else
    match g.groups_team_filtered with
    | .error e => .error e
    | .ok teams => .ok (listChannelsLoop g.channels_of ((teams.value.getD []).take 5) [])

/-- The team ids for which the aggregation branch consults the vendor: the
truthy ids among the first 5 returned groups. -/
def first5TeamIds (resp : GraphResponse RawGroup) : List String :=
  ((resp.value.getD []).take 5).filterMap
    (fun t => if pyFalsy t.id then none else some (pyOr t.id ""))

/-! ### Messages (lines 189-223) -/

def mkMessage (channel_id : String) (msg : RawMessage) : Message :=
  { id := some (pyOr msg.id "")
    content := (match msg.body with | some b => b.content | none => some "")
    sender :=
      (match msg.from_ with
       | some f =>
         (match f.user with
          | some u => pyOr u.display_name "Unknown"
          | none => "Unknown")
       | none => "Unknown")
    timestamp := (match msg.created_date_time with | some t => t | none => "")
    channel_id := channel_id }

/-- `get_messages` (lines 189-223); the oracle is keyed by team id and
channel id. -/
def get_messages (fetch : String → String → GraphResponse RawMessage)
    (channel_id : String) (limit : Nat) (team_id : Option String) :
    Except M365Error (List Message) :=
  if pyFalsy team_id then .error .teamIdRequired
  else
    .ok ((((fetch (pyOr team_id "") channel_id).value.getD []).take limit).map
      (mkMessage channel_id))

/-! ### Webhook posting (lines 225-252) -/

structure CardSection where
  activityTitle : String
  text : String
deriving DecidableEq

/-- The two JSON payload shapes built by `post_message`: the rich card has
the `@type` discriminator (field `type_` here), a `summary` and a `sections`
list; the plain shape is the single-key text object. -/
inductive Payload where
  | card (type_ : String) (summary : String) (sections : List CardSection)
  | plain (text : String)
deriving DecidableEq

/-- Lines 240-248: build the payload; `if title:` is Python truthiness. -/
def buildPayload (message : String) (title : Option String) : Payload :=
  if pyTruthy title then
    .card "MessageCard" (pyOr title "") [{ activityTitle := pyOr title "", text := message }]
  else .plain message

/-- `post_message` (lines 225-252); `http url payload` is the status code of
the POST of `payload` to `url`. -/
def post_message (cfg : M365Config) (http : String → Payload → Nat)
    (channel_name message : String) (title : Option String) :
    Except M365Error Bool :=
  let webhook_url := dictGet cfg.webhooks channel_name
  if pyFalsy webhook_url then
    .error (.noWebhookConfigured channel_name (cfg.webhooks.map (fun kv => kv.1)))
  else
    .ok (http (pyOr webhook_url "") (buildPayload message title) == 200)

/-! ### Documents (lines 258-332) -/

/-- The SharePoint-side vendor surface.  `put_content site path bytes` is the
upload response, which the source allows to be falsy (`if result else`). -/
structure SPGraph where
  sites : Option (GraphResponse RawSite)
  children_at_root : String → GraphResponse RawDriveItem
  children_at_path : String → String → GraphResponse RawDriveItem
  put_content : String → String → Bytes → Option RawDriveItem

/-- The shared site-resolution prologue (lines 264-272 and 305-312): a given
truthy `site_id` is used as-is; otherwise the first listed site's id, with
the two failure cases distinguished exactly as in `upload_document`.
(`list_documents` maps both failures to an empty result instead.) -/
def resolveSiteId (g : SPGraph) (site_id : Option String) : Except M365Error String :=
  if pyTruthy site_id then .ok (pyOr site_id "")
  else
    match g.sites with
    | none => .error .noSitesAvailable
    | some sites =>
      match sites.value with
      | none => .error .noSitesAvailable
      | some [] => .error .noSitesAvailable
      | some (first_site :: _) =>
        if pyFalsy first_site.id then .error .siteHasNoId
        else .ok (pyOr first_site.id "")

def mkDocument (folder_path : Option String) (item : RawDriveItem) : Document :=
  { id := some (pyOr item.id "")
    name := pyOr item.name ""
    path := pyOr folder_path "/"
    web_url := item.web_url
    size := item.size
    is_folder := item.folder.isSome }

/-- `list_documents` (lines 258-295): both site-resolution failures are the
early `return []` branches. -/
def list_documents (g : SPGraph) (folder_path site_id : Option String) :
    List Document :=
  match resolveSiteId g site_id with
  | .error _ => []
  | .ok sid =>
    let result :=
      if pyTruthy folder_path && !(pyOr folder_path "" == "root") then
        g.children_at_path sid (pyOr folder_path "")
      else g.children_at_root sid
    (result.value.getD []).map (mkDocument folder_path)

/-- Line 317-319: the destination path of an upload. -/
def destPath (folder_path : Option String) (name : String) : String :=
  if pyTruthy folder_path && !(pyOr folder_path "" == "root") then
    pyOr folder_path "" ++ "/" ++ name
  else name

/-- Lines 314-315: `isinstance(content, str)` content is encoded to UTF-8. -/
def uploadBytes : Bytes ⊕ String → Bytes
  | .inl b => b
  | .inr s => pyEncodeUtf8 s

/-- `upload_document` (lines 297-332). -/
def upload_document (g : SPGraph) (name : String) (content : Bytes ⊕ String)
    (folder_path site_id : Option String) : Except M365Error Document :=
  match resolveSiteId g site_id with
  | .error e => .error e
  | .ok sid =>
    let path := destPath folder_path name
    let result := g.put_content sid path (uploadBytes content)
    .ok { id := (match result with | some r => r.id | none => some "")
          name := name
          path := path
          web_url := (match result with | some r => r.web_url | none => none)
          size := none
          is_folder := false }

/-! ### Tasks (lines 360-378) -/

def mkTask (task : RawTask) : Task :=
  { id := some (pyOr task.id "")
    title := pyOr task.title ""
    status := if task.percent_complete == some 100 then "complete" else "in_progress"
    due_date := task.due_date_time }

/-- `list_tasks` (lines 360-378); the oracle is keyed by plan id. -/
def list_tasks (fetch : String → GraphResponse RawTask) (plan_id : Option String) :
    List Task :=
  if pyFalsy plan_id then []
  else ((fetch (pyOr plan_id "")).value.getD []).map mkTask

/-! ### Dictionary lemmas (webhook parsing) -/

theorem dictGet_dictSet (d : List (String × String)) (k v key : String) :
    dictGet (dictSet d k v) key = if k == key then some v else dictGet d key := by
  induction d with
  | nil => simp [dictSet, dictGet]
  | cons p rest ih =>
    obtain ⟨k1, v1⟩ := p
    by_cases h : k1 = k
    · subst h
      by_cases h2 : k1 = key <;> simp [dictSet, dictGet, h2]
    · have hb : (k1 == k) = false := by simp [h]
      by_cases h2 : k1 = key
      · subst h2
        have hk : (k == k1) = false := beq_eq_false_iff_ne.mpr (Ne.symm h)
        simp [dictSet, dictGet, hb, hk]
      · simp [dictSet, dictGet, hb, h2, ih]

theorem dictGet_foldl_dictSet (ps : List (String × String))
    (d : List (String × String)) (key : String) :
    dictGet (ps.foldl (fun d kv => dictSet d kv.1 kv.2) d) key =
      ((ps.reverse.find? (fun kv => kv.1 == key)).map (fun kv => kv.2)).or
        (dictGet d key) := by
  induction ps generalizing d with
  | nil => simp
  | cons p ps ih =>
    rw [List.foldl_cons, ih, List.reverse_cons, List.find?_append]
    cases hf : ps.reverse.find? (fun kv => kv.1 == key) with
    | some kv => simp
    | none =>
      by_cases hp : (p.1 == key) = true <;>
        simp [List.find?, hp, dictGet_dictSet]

/-- The webhook-parsing fold, restricted to the entries that contain `'='`. -/
theorem parseWebhooks_foldl_filterMap (pairs : List String)
    (d : List (String × String)) :
    pairs.foldl
      (fun d pair =>
        match pySplitEq1 pair with
        | none => d
        | some (name, url) => dictSet d (pyStrip name) (pyStrip url)) d =
    (pairs.filterMap
      (fun pair =>
        match pySplitEq1 pair with
        | none => none
        | some (name, url) => some (pyStrip name, pyStrip url))).foldl
      (fun d kv => dictSet d kv.1 kv.2) d := by
  induction pairs generalizing d with
  | nil => rfl
  | cons p ps ih =>
    cases h : pySplitEq1 p with
    | none => simp [h, ih]
    | some nu => obtain ⟨n, u⟩ := nu; simp [h, ih]

/-! ### C4 — webhook string parsing -/

/-- The claim's reading of the parse: split on commas into entries, keep
exactly the entries containing an `'='`, split each at the first `'='`,
trim surrounding whitespace from name and url. -/
def specWebhookEntries (s : String) : List (String × String) :=
  (pySplit ',' s).filterMap
    (fun pair =>
      match pySplitEq1 pair with
      | none => none
      | some (name, url) => some (pyStrip name, pyStrip url))

/-- The claim's mapping semantics: the last occurrence of a name wins. -/
def specWebhookLookup (s : String) (name : String) : Option String :=
  ((specWebhookEntries s).reverse.find? (fun kv => kv.1 == name)).map
    (fun kv => kv.2)

/-- C4: webhook parsing splits on commas, silently skips entries without
`'='`, splits the rest at the first `'='`, trims name and url, and the last
occurrence of a duplicated name wins; the two example strings parse to
exactly the claimed mappings. -/
theorem parseWebhooks_c4 :
    (∀ s key, dictGet (parseWebhooks s) key = specWebhookLookup s key) ∧
    parseWebhooks "general=https://a,alerts=https://b" =
      [("general", "https://a"), ("alerts", "https://b")] ∧
    parseWebhooks "general=https://a,general=https://c" =
      [("general", "https://c")] := by
  refine ⟨?_, by decide, by decide⟩
  intro s key
  by_cases hs : s = ""
  · subst hs
    show dictGet [] key = specWebhookLookup "" key
    have : specWebhookEntries "" = [] := rfl
    simp [specWebhookLookup, this, dictGet]
  · have hs' : (s == "") = false := by simp [hs]
    unfold parseWebhooks specWebhookLookup specWebhookEntries
    rw [hs']
    simp only [Bool.false_eq_true, if_false]
    rw [parseWebhooks_foldl_filterMap, dictGet_foldl_dictSet]
    simp [dictGet]

/-! ### C3 — required configuration fields -/

/-- C3: when any subset of the three required variables is absent or empty,
`from_env` fails listing exactly the falsy ones (all of them); when only the
client secret is missing the error names exactly it; when none is missing,
loading succeeds. -/
theorem from_env_c3 (env : Env) :
    ((pyFalsy (env "M365_TENANT_ID") || pyFalsy (env "M365_CLIENT_ID") ||
        pyFalsy (env "M365_CLIENT_SECRET")) = true →
      ∃ m, M365Config.from_env env = .error (.missingEnvVars m) ∧
        ("M365_TENANT_ID" ∈ m ↔ pyFalsy (env "M365_TENANT_ID") = true) ∧
        ("M365_CLIENT_ID" ∈ m ↔ pyFalsy (env "M365_CLIENT_ID") = true) ∧
        ("M365_CLIENT_SECRET" ∈ m ↔ pyFalsy (env "M365_CLIENT_SECRET") = true) ∧
        m.Nodup ∧
        ∀ k ∈ m, k ∈ ["M365_TENANT_ID", "M365_CLIENT_ID", "M365_CLIENT_SECRET"]) ∧
    ((pyFalsy (env "M365_TENANT_ID") = false ∧ pyFalsy (env "M365_CLIENT_ID") = false ∧
        pyFalsy (env "M365_CLIENT_SECRET") = false) →
      ∃ cfg, M365Config.from_env env = .ok cfg) ∧
    (pyFalsy (env "M365_TENANT_ID") = false → pyFalsy (env "M365_CLIENT_ID") = false →
      pyFalsy (env "M365_CLIENT_SECRET") = true →
      M365Config.from_env env = .error (.missingEnvVars ["M365_CLIENT_SECRET"])) := by
  cases h1 : pyFalsy (env "M365_TENANT_ID") <;>
    cases h2 : pyFalsy (env "M365_CLIENT_ID") <;>
      cases h3 : pyFalsy (env "M365_CLIENT_SECRET") <;>
        refine ⟨?_, ?_, ?_⟩ <;>
          simp only [M365Config.from_env, h1, h2, h3, Bool.or_self, Bool.or_true,
            Bool.true_or, Bool.or_false, Bool.false_or, if_true, if_false,
            List.filter, List.map, Bool.false_eq_true, Bool.true_eq_false,
            reduceIte, and_imp, forall_const, IsEmpty.forall_iff] <;>
        first
        | (intro h; cases h)
        | exact fun _ _ _ => rfl
        | exact fun _ => ⟨_, rfl⟩
        | exact ⟨_, rfl⟩
        | (exact ⟨_, rfl, by simp [h1, h2, h3], by simp [h1, h2, h3],
            by simp [h1, h2, h3], by decide, by decide⟩)
        | simp

/-- Environment for the C3 witness: tenant and client id present, client
secret missing. -/
def envC3 : Env := fun k =>
  if k == "M365_TENANT_ID" then some "tenant"
  else if k == "M365_CLIENT_ID" then some "client" else none

/-- Witness for C3: with only the client secret missing the error names
exactly the client-secret variable. -/
theorem from_env_c3_witness :
    M365Config.from_env envC3 = .error (.missingEnvVars ["M365_CLIENT_SECRET"]) :=
  (from_env_c3 envC3).2.2 (by decide) (by decide) (by decide)

/-! ### C10 — the constructor ignores its config argument -/

/-- C10: the optional `config` argument of the constructor is ignored: two
providers constructed under the same environment with different config
arguments are identical, and the provider's configuration is exactly what
`from_env` loads. -/
theorem init_ignores_config_c10 (c1 c2 : Option (List (String × String))) (env : Env) :
    M365Provider.init c1 env = M365Provider.init c2 env ∧
    (∀ p, M365Provider.init c1 env = .ok p →
      M365Config.from_env env = .ok p.config) := by
  refine ⟨rfl, ?_⟩
  intro p hp
  unfold M365Provider.init at hp
  cases h : M365Config.from_env env with
  | error e => rw [h] at hp; exact absurd hp (by simp [Except.map])
  | ok cfg =>
    rw [h] at hp
    simp only [Except.map, Except.ok.injEq] at hp
    rw [← hp]

/-- Environment for the C10 witness. -/
def envC10 : Env := fun k =>
  if k == "M365_TENANT_ID" then some "t"
  else if k == "M365_CLIENT_ID" then some "c"
  else if k == "M365_CLIENT_SECRET" then some "s" else none

/-- The provider the C10 witness environment produces. -/
def provC10 : M365Provider :=
  { config := { tenant_id := "t", client_id := "c", client_secret := "s", webhooks := [] }
    credential := { tenant_id := "t", client_id := "c", client_secret := "s" } }

/-- Witness for C10: a concrete config dict argument versus no argument. -/
theorem init_ignores_config_c10_witness :
    M365Provider.init (some [("tenant_id", "other")]) envC10 =
      M365Provider.init none envC10 ∧
    M365Config.from_env envC10 = .ok provC10.config :=
  ⟨(init_ignores_config_c10 (some [("tenant_id", "other")]) none envC10).1,
   (init_ignores_config_c10 (some [("tenant_id", "other")]) none envC10).2 provC10
     (by decide)⟩

/-! ### C1 — bounded, failure-tolerant team aggregation -/

/-- The accumulator loop is the concatenation of the per-team results. -/
theorem listChannelsLoop_eq_flatMap
    (f : String → Except Unit (GraphResponse RawChannel))
    (teams : List RawGroup) (acc : List Channel) :
    listChannelsLoop f teams acc = acc ++ teams.flatMap (perTeamChannels f) := by
  induction teams generalizing acc with
  | nil => simp [listChannelsLoop]
  | cons t ts ih => simp [listChannelsLoop, ih, List.flatMap_cons, List.append_assoc]

/-- Aggregation only depends on the channel fetcher's answers at the truthy
team ids actually iterated. -/
theorem flatMap_perTeamChannels_congr (teams : List RawGroup)
    (f f' : String → Except Unit (GraphResponse RawChannel))
    (h : ∀ t ∈ teams, pyFalsy t.id = false → f (pyOr t.id "") = f' (pyOr t.id "")) :
    teams.flatMap (perTeamChannels f) = teams.flatMap (perTeamChannels f') := by
  induction teams with
  | nil => rfl
  | cons t ts ih =>
    have ht := h t (by simp)
    have hts : ∀ t2 ∈ ts, pyFalsy t2.id = false →
        f (pyOr t2.id "") = f' (pyOr t2.id "") :=
      fun t2 ht2 => h t2 (by simp [ht2])
    simp only [List.flatMap_cons, ih hts]
    congr 1
    unfold perTeamChannels
    cases hid : pyFalsy t.id with
    | true => simp
    | false => rw [ht hid]

/-- C1: with `team_id` omitted, channels are fetched for at most the first 5
Team-provisioned groups (the result only depends on the fetcher at the
truthy ids among the first 5 groups), and the aggregate is the concatenation
of the per-team results in which a raising per-team fetch contributes
nothing — the call never fails because one team is inaccessible. -/
theorem list_channels_c1 (g g2 : TeamsGraph) (resp : GraphResponse RawGroup)
    (hg : g.groups_team_filtered = .ok resp)
    (hg2 : g2.groups_team_filtered = .ok resp)
    (hagree : ∀ tid ∈ first5TeamIds resp, g.channels_of tid = g2.channels_of tid) :
    list_channels g none = list_channels g2 none ∧
    list_channels g none =
      .ok (((resp.value.getD []).take 5).flatMap (perTeamChannels g.channels_of)) := by
  have hrun : ∀ h : TeamsGraph, h.groups_team_filtered = .ok resp →
      list_channels h none =
        .ok (((resp.value.getD []).take 5).flatMap (perTeamChannels h.channels_of)) := by
    intro h hh
    unfold list_channels
    rw [show pyTruthy none = false from rfl]
    simp only [Bool.false_eq_true, if_false, hh]
    rw [listChannelsLoop_eq_flatMap]
    simp
  refine ⟨?_, hrun g hg⟩
  rw [hrun g hg, hrun g2 hg2]
  congr 1
  apply flatMap_perTeamChannels_congr
  intro t ht hid
  apply hagree
  exact List.mem_filterMap.mpr ⟨t, ht, by simp [hid]⟩

/-- Seven Team-provisioned groups, as returned by the vendor. -/
def groupsC1 : GraphResponse RawGroup :=
  ⟨some [⟨some "t1", some "Team 1"⟩, ⟨some "t2", some "Team 2"⟩,
         ⟨some "t3", some "Team 3"⟩, ⟨some "t4", some "Team 4"⟩,
         ⟨some "t5", some "Team 5"⟩, ⟨some "t6", some "Team 6"⟩,
         ⟨some "t7", some "Team 7"⟩]⟩

/-- Channel fetcher for the C1 witness: team `t3` raises, every other team
has one channel. -/
def channelsOfC1 : String → Except Unit (GraphResponse RawChannel) := fun tid =>
  if tid == "t3" then .error ()
  else .ok ⟨some [⟨some ("c-" ++ tid), some ("General " ++ tid), none⟩]⟩

def gC1 : TeamsGraph := ⟨.ok groupsC1, channelsOfC1⟩

/-- Same tenant, but teams 6 and 7 (never iterated) now also raise. -/
def gC1' : TeamsGraph :=
  ⟨.ok groupsC1, fun tid =>
    if tid == "t6" || tid == "t7" then .error () else channelsOfC1 tid⟩

/-- Witness for C1: seven teams, the third raises, the sixth and seventh are
never queried; the aggregate contains exactly the channels of teams 1, 2, 4
and 5 and no error is propagated. -/
theorem list_channels_c1_witness :
    (list_channels gC1 none = list_channels gC1' none ∧
      list_channels gC1 none =
        .ok (((groupsC1.value.getD []).take 5).flatMap
          (perTeamChannels gC1.channels_of))) ∧
    list_channels gC1 none =
      .ok [⟨some "c-t1", "General t1", none, "t1", some "Team 1"⟩,
           ⟨some "c-t2", "General t2", none, "t2", some "Team 2"⟩,
           ⟨some "c-t4", "General t4", none, "t4", some "Team 4"⟩,
           ⟨some "c-t5", "General t5", none, "t5", some "Team 5"⟩] :=
  ⟨list_channels_c1 gC1 gC1' groupsC1 rfl rfl (by decide), by decide⟩

/-! ### C5 — mandatory team id for channel messages -/

/-- Vendor messages for the C5 theorems. -/
def fetchC5 : String → String → GraphResponse RawMessage := fun _ _ =>
  ⟨some [⟨some "m1", some ⟨some "hello"⟩, some ⟨some ⟨some "Ada"⟩⟩, some "2024-01-01"⟩,
         ⟨some "m2", none, none, none⟩,
         ⟨some "m3", some ⟨some "third"⟩, none, none⟩]⟩

/-- C5 counterexample: `team_id=""` is present — not absent — yet the call
fails with the team-id error instead of returning messages, refuting the
claim's "when team_id is present, messages are returned". -/
theorem get_messages_c5_counterexample :
    get_messages fetchC5 "chan" 20 (some "") = .error .teamIdRequired ∧
    (∀ msgs : List Message, get_messages fetchC5 "chan" 20 (some "") ≠ .ok msgs) := by
  refine ⟨rfl, ?_⟩
  intro msgs h
  rw [show get_messages fetchC5 "chan" 20 (some "") = .error .teamIdRequired from rfl]
    at h
  exact Except.noConfusion h

/-- C5 amended: with `team_id` absent — or empty — the call fails with the
InvalidArgumentError for every fetcher (so before any network call); with a
non-empty `team_id` it returns the first `limit` vendor messages in vendor
order, with sender falling back to "Unknown" when the author is absent and
to the author's display name otherwise. -/
theorem get_messages_c5 (fetch : String → String → GraphResponse RawMessage)
    (channel_id : String) (limit : Nat) :
    (∀ team_id, pyFalsy team_id = true →
      get_messages fetch channel_id limit team_id = .error .teamIdRequired) ∧
    (∀ tid, tid ≠ "" →
      get_messages fetch channel_id limit (some tid) =
        .ok ((((fetch tid channel_id).value.getD []).take limit).map
          (mkMessage channel_id)) ∧
      ∀ msgs, get_messages fetch channel_id limit (some tid) = .ok msgs →
        msgs.length ≤ limit) ∧
    (∀ msg, (msg.from_ = none ∨ ∃ f, msg.from_ = some f ∧ f.user = none) →
      (mkMessage channel_id msg).sender = "Unknown") ∧
    (∀ msg f u dn, msg.from_ = some f → f.user = some u →
      u.display_name = some dn → dn ≠ "" →
      (mkMessage channel_id msg).sender = dn) := by
  refine ⟨?_, ?_, ?_, ?_⟩
  · intro team_id h
    unfold get_messages
    rw [h]
    rfl
  · intro tid htid
    have hfal : pyFalsy (some tid) = false := by simp [pyFalsy, htid]
    have hor : pyOr (some tid) "" = tid := by simp [pyOr, htid]
    constructor
    · unfold get_messages
      rw [hfal, hor]
      rfl
    · intro msgs hmsgs
      unfold get_messages at hmsgs
      rw [hfal] at hmsgs
      simp only [Bool.false_eq_true, if_false, Except.ok.injEq] at hmsgs
      rw [← hmsgs]
      simp [List.length_take]
  · intro msg h
    rcases h with h | ⟨f, hf, hu⟩ <;> simp [mkMessage, *]
  · intro msg f u dn hf hu hdn hne
    simp [mkMessage, hf, hu, hdn, pyOr, hne]

/-- Witness for C5: empty team id rejected; two of three messages returned
for limit 2; sender fallback and sender derivation at concrete messages. -/
theorem get_messages_c5_witness :
    get_messages fetchC5 "chan" 2 (some "") = .error .teamIdRequired ∧
    get_messages fetchC5 "chan" 2 (some "team") =
      .ok ((((fetchC5 "team" "chan").value.getD []).take 2).map (mkMessage "chan")) ∧
    (mkMessage "chan" ⟨some "m2", none, none, none⟩).sender = "Unknown" ∧
    (mkMessage "chan" ⟨some "m1", some ⟨some "hello"⟩, some ⟨some ⟨some "Ada"⟩⟩,
      some "2024-01-01"⟩).sender = "Ada" :=
  ⟨(get_messages_c5 fetchC5 "chan" 2).1 (some "") (by decide),
   ((get_messages_c5 fetchC5 "chan" 2).2.1 "team" (by decide)).1,
   (get_messages_c5 fetchC5 "chan" 2).2.2.1 _ (Or.inl rfl),
   (get_messages_c5 fetchC5 "chan" 2).2.2.2 _ _ _ _ rfl rfl rfl (by decide)⟩

/-! ### C6 — tasks: no plan, empty result; binary status mapping -/

/-- C6: without a plan id the result is empty for every fetcher (no network
call); otherwise every returned task comes from a vendor task and its status
is "complete" exactly when the vendor completion percentage is 100, and
"in_progress" for every other value. -/
theorem list_tasks_c6 (fetch : String → GraphResponse RawTask) :
    list_tasks fetch none = [] ∧
    (∀ p t, t ∈ list_tasks fetch (some p) →
      ∃ r, r ∈ (fetch p).value.getD [] ∧ t = mkTask r ∧
        (t.status = "complete" ↔ r.percent_complete = some 100) ∧
        (r.percent_complete ≠ some 100 → t.status = "in_progress")) := by
  refine ⟨rfl, ?_⟩
  intro p t ht
  by_cases hp : p = ""
  · subst hp
    simp [list_tasks, pyFalsy] at ht
  · have hfal : pyFalsy (some p) = false := by simp [pyFalsy, hp]
    have hor : pyOr (some p) "" = p := by simp [pyOr, hp]
    unfold list_tasks at ht
    rw [hfal, hor] at ht
    simp only [Bool.false_eq_true, if_false, List.mem_map] at ht
    obtain ⟨r, hr, rfl⟩ := ht
    refine ⟨r, hr, rfl, ?_, ?_⟩
    · unfold mkTask
      by_cases h100 : r.percent_complete = some 100 <;>
        simp [h100]
    · intro h100
      unfold mkTask
      simp [h100]

/-- Vendor tasks for the C6 witness: one finished, one half done. -/
def fetchC6 : String → GraphResponse RawTask := fun _ =>
  ⟨some [⟨some "a", some "Done", some 100, none⟩,
         ⟨some "b", some "Half", some 50, none⟩]⟩

def taskC6a : Task := { id := some "a", title := "Done", status := "complete", due_date := none }

def taskC6b : Task := { id := some "b", title := "Half", status := "in_progress", due_date := none }

/-- Witness for C6 at percent 100 and percent 50. -/
theorem list_tasks_c6_witness :
    list_tasks fetchC6 none = [] ∧
    (∃ r, r ∈ (fetchC6 "p1").value.getD [] ∧ taskC6a = mkTask r ∧
      (taskC6a.status = "complete" ↔ r.percent_complete = some 100) ∧
      (r.percent_complete ≠ some 100 → taskC6a.status = "in_progress")) ∧
    (∃ r, r ∈ (fetchC6 "p1").value.getD [] ∧ taskC6b = mkTask r ∧
      (taskC6b.status = "complete" ↔ r.percent_complete = some 100) ∧
      (r.percent_complete ≠ some 100 → taskC6b.status = "in_progress")) :=
  ⟨(list_tasks_c6 fetchC6).1,
   (list_tasks_c6 fetchC6).2 "p1" taskC6a (by decide),
   (list_tasks_c6 fetchC6).2 "p1" taskC6b (by decide)⟩

/-! ### C2 — webhook message posting -/

/-- Webhook configuration for the C2 theorems: one channel `general`. -/
def cfgC2 : M365Config :=
  { tenant_id := "t", client_id := "c", client_secret := "s"
    webhooks := [("general", "https://x")] }

/-- HTTP stub for the C2 counterexample: answers 200 only to the plain
payload, so the returned success shows exactly which payload was POSTed. -/
def httpC2 : String → Payload → Nat := fun _ p =>
  if p == Payload.plain "hi" then 200 else 400

/-- C2 counterexample: `title=""` is given — not omitted — yet the payload
built and POSTed is the plain text shape, not the card shape. -/
theorem post_message_c2_counterexample :
    buildPayload "hi" (some "") = Payload.plain "hi" ∧
    (∀ ty su secs, buildPayload "hi" (some "") ≠ Payload.card ty su secs) ∧
    post_message cfgC2 httpC2 "general" "hi" (some "") = .ok true := by
  refine ⟨rfl, ?_, by decide⟩
  intro ty su secs h
  rw [show buildPayload "hi" (some "") = Payload.plain "hi" from rfl] at h
  exact Payload.noConfusion h

/-- C2 amended: an unresolvable channel name — no entry, or an entry whose
url is empty — fails with the NotFoundError listing all configured channel
names; otherwise the card payload is POSTed when `title` is given and
non-empty and the plain payload when `title` is omitted or empty, and the
call returns success exactly when the HTTP status is 200, any other status
yielding `false` rather than an error. -/
theorem post_message_c2 (cfg : M365Config) (http : String → Payload → Nat)
    (channel_name message : String) (title : Option String) :
    (pyFalsy (dictGet cfg.webhooks channel_name) = true →
      post_message cfg http channel_name message title =
        .error (.noWebhookConfigured channel_name
          (cfg.webhooks.map (fun kv => kv.1)))) ∧
    (∀ url, dictGet cfg.webhooks channel_name = some url → url ≠ "" →
      (post_message cfg http channel_name message title = .ok true ↔
        http url (buildPayload message title) = 200) ∧
      (http url (buildPayload message title) ≠ 200 →
        post_message cfg http channel_name message title = .ok false) ∧
      (∀ e, post_message cfg http channel_name message title ≠ .error e)) ∧
    (∀ t, title = some t → t ≠ "" →
      buildPayload message title =
        .card "MessageCard" t [{ activityTitle := t, text := message }]) ∧
    ((title = none ∨ title = some "") → buildPayload message title = .plain message) := by
  refine ⟨?_, ?_, ?_, ?_⟩
  · intro h
    simp [post_message, h]
  · intro url hurl hne
    have hfal : pyFalsy (dictGet cfg.webhooks channel_name) = false := by
      rw [hurl]; simp [pyFalsy, hne]
    have hor : pyOr (dictGet cfg.webhooks channel_name) "" = url := by
      rw [hurl]; simp [pyOr, hne]
    have hrun : post_message cfg http channel_name message title =
        .ok (http url (buildPayload message title) == 200) := by
      simp [post_message, hfal, hor]
    refine ⟨?_, ?_, ?_⟩
    · rw [hrun]
      simp [beq_iff_eq]
    · intro h
      rw [hrun]
      simp [beq_eq_false_iff_ne.mpr h]
    · intro e h
      rw [hrun] at h
      exact Except.noConfusion h
  · intro t ht hne
    subst ht
    unfold buildPayload
    have : pyTruthy (some t) = true := by simp [pyTruthy, pyFalsy, hne]
    rw [this]
    simp [pyOr, hne]
  · intro h
    rcases h with h | h <;> subst h <;> rfl

/-- HTTP stub for the C2 witness. -/
def httpC2w : String → Payload → Nat := fun _ _ => 200

/-- Witness for C2: unresolved channel error with the configured names
listed; success-iff-200; card shape for a non-empty title; plain shape for
an omitted title. -/
theorem post_message_c2_witness :
    post_message cfgC2 httpC2w "missing" "hi" none =
      .error (.noWebhookConfigured "missing" ["general"]) ∧
    (post_message cfgC2 httpC2w "general" "hi" none = .ok true ↔
      httpC2w "https://x" (buildPayload "hi" none) = 200) ∧
    buildPayload "hi" (some "Alert") =
      .card "MessageCard" "Alert" [{ activityTitle := "Alert", text := "hi" }] ∧
    buildPayload "hi" none = .plain "hi" :=
  ⟨(post_message_c2 cfgC2 httpC2w "missing" "hi" none).1 (by decide),
   ((post_message_c2 cfgC2 httpC2w "general" "hi" none).2.1 "https://x"
     (by decide) (by decide)).1,
   (post_message_c2 cfgC2 httpC2w "general" "hi" (some "Alert")).2.2.1 "Alert"
     rfl (by decide),
   (post_message_c2 cfgC2 httpC2w "general" "hi" none).2.2.2 (Or.inl rfl)⟩

/-! ### C7 — document upload -/

/-- C7 amended: with `site_id` unset, a tenant without sites — or whose
first site lacks an id — fails with the NotFoundError-class errors; string
content behaves exactly as its UTF-8 byte encoding; the destination path is
`folder_path/name` when `folder_path` is present, non-empty and not "root",
and just `name` when it is absent, empty, or "root". -/
theorem upload_document_c7 (g : SPGraph) (name : String) (content : Bytes ⊕ String)
    (folder_path site_id : Option String) :
    (pyTruthy site_id = false →
      (g.sites = none ∨ ∃ r, g.sites = some r ∧ (r.value = none ∨ r.value = some [])) →
      upload_document g name content folder_path site_id = .error .noSitesAvailable) ∧
    (pyTruthy site_id = false → ∀ r first_site rest, g.sites = some r →
      r.value = some (first_site :: rest) → pyFalsy first_site.id = true →
      upload_document g name content folder_path site_id = .error .siteHasNoId) ∧
    (∀ s, content = .inr s →
      upload_document g name content folder_path site_id =
        upload_document g name (.inl (pyEncodeUtf8 s)) folder_path site_id) ∧
    (∀ doc, upload_document g name content folder_path site_id = .ok doc →
      ((folder_path = none ∨ folder_path = some "" ∨ folder_path = some "root") →
        doc.path = name) ∧
      (∀ f, folder_path = some f → f ≠ "" → f ≠ "root" →
        doc.path = f ++ "/" ++ name)) := by
  refine ⟨?_, ?_, ?_, ?_⟩
  · intro hsid hfail
    have hres : resolveSiteId g site_id = .error .noSitesAvailable := by
      unfold resolveSiteId
      rw [hsid]
      rcases hfail with h | ⟨r, hr, hv⟩
      · simp [h]
      · rcases hv with hv | hv <;> simp [hr, hv]
    unfold upload_document
    rw [hres]
  · intro hsid r first_site rest hr hv hid
    have hres : resolveSiteId g site_id = .error .siteHasNoId := by
      unfold resolveSiteId
      rw [hsid]
      simp [hr, hv, hid]
    unfold upload_document
    rw [hres]
  · intro s hs
    subst hs
    rfl
  · intro doc hdoc
    unfold upload_document at hdoc
    cases hres : resolveSiteId g site_id with
    | error e => rw [hres] at hdoc; exact absurd hdoc (by simp)
    | ok sid =>
      rw [hres] at hdoc
      simp only [Except.ok.injEq] at hdoc
      have hpath : doc.path = destPath folder_path name := by rw [← hdoc]
      constructor
      · intro h
        rw [hpath]
        rcases h with h | h | h <;> subst h <;> rfl
      · intro f hf hne hroot
        subst hf
        rw [hpath]
        unfold destPath
        have ht : pyTruthy (some f) = true := by simp [pyTruthy, pyFalsy, hne]
        have hr : (pyOr (some f) "" == "root") = false := by
          simp [pyOr, hne, hroot]
        rw [ht, hr]
        simp [pyOr, hne]

/-- SharePoint stub for the C7 theorems: one site `s1`; uploads succeed and
report id and url. -/
def gC7 : SPGraph :=
  { sites := some ⟨some [⟨some "s1"⟩]⟩
    children_at_root := fun _ => ⟨some []⟩
    children_at_path := fun _ _ => ⟨some []⟩
    put_content := fun _ _ _ => some ⟨some "id1", some "f.txt", some "https://doc", none, none⟩ }

/-- C7 counterexample: `folder_path=""` is present and differs from "root",
yet the destination path is just the file name, not `"" ++ "/" ++ name`. -/
theorem upload_document_c7_counterexample :
    upload_document gC7 "f.txt" (.inr "hello") (some "") none =
      .ok { id := some "id1", name := "f.txt", path := "f.txt"
            web_url := some "https://doc", size := none, is_folder := false } ∧
    ((some "" : Option String) ≠ none ∧ (some "" : Option String) ≠ some "root") ∧
    "f.txt" ≠ "" ++ "/" ++ "f.txt" := by
  refine ⟨by decide, by decide, by decide⟩

/-- Tenant without any SharePoint site. -/
def gC7none : SPGraph :=
  { sites := none
    children_at_root := fun _ => ⟨some []⟩
    children_at_path := fun _ _ => ⟨some []⟩
    put_content := fun _ _ _ => none }

/-- Tenant whose first site has an empty id. -/
def gC7noid : SPGraph :=
  { sites := some ⟨some [⟨some ""⟩]⟩
    children_at_root := fun _ => ⟨some []⟩
    children_at_path := fun _ _ => ⟨some []⟩
    put_content := fun _ _ _ => none }

def docC7docs : Document :=
  { id := some "id1", name := "f.txt", path := "docs/f.txt"
    web_url := some "https://doc", size := none, is_folder := false }

def docC7root : Document :=
  { id := some "id1", name := "f.txt", path := "f.txt"
    web_url := some "https://doc", size := none, is_folder := false }

/-- Witness for C7: both site-resolution failures, encoding of string
content, and the two destination-path regimes, all at concrete inputs. -/
theorem upload_document_c7_witness :
    upload_document gC7none "f" (.inl []) none none = .error .noSitesAvailable ∧
    upload_document gC7noid "f" (.inl []) none none = .error .siteHasNoId ∧
    upload_document gC7 "f.txt" (.inr "hello") (some "docs") none =
      upload_document gC7 "f.txt" (.inl (pyEncodeUtf8 "hello")) (some "docs") none ∧
    docC7docs.path = "docs" ++ "/" ++ "f.txt" ∧
    docC7root.path = "f.txt" :=
  ⟨(upload_document_c7 gC7none "f" (.inl []) none none).1 (by decide) (Or.inl rfl),
   (upload_document_c7 gC7noid "f" (.inl []) none none).2.1 (by decide)
     ⟨some [⟨some ""⟩]⟩ ⟨some ""⟩ [] rfl rfl (by decide),
   (upload_document_c7 gC7 "f.txt" (.inr "hello") (some "docs") none).2.2.1
     "hello" rfl,
   ((upload_document_c7 gC7 "f.txt" (.inr "hello") (some "docs") none).2.2.2
     docC7docs (by decide)).2 "docs" rfl (by decide) (by decide),
   ((upload_document_c7 gC7 "f.txt" (.inr "hello") (some "root") none).2.2.2
     docC7root (by decide)).1 (Or.inr (Or.inr rfl))⟩

/-! ### C9 — document paths for root listings -/

/-- C9 amended: with `folder_path` absent or empty every listed document has
path "/", but with the literal `folder_path="root"` — which also lists the
drive root — every listed document has path "root", not "/". -/
theorem list_documents_c9 (g : SPGraph) (site_id : Option String) :
    (∀ d ∈ list_documents g none site_id, d.path = "/") ∧
    (∀ d ∈ list_documents g (some "") site_id, d.path = "/") ∧
    (∀ d ∈ list_documents g (some "root") site_id, d.path = "root") := by
  have key : ∀ (fp : Option String) (d : Document),
      d ∈ list_documents g fp site_id → d.path = pyOr fp "/" := by
    intro fp d hd
    unfold list_documents at hd
    cases hres : resolveSiteId g site_id with
    | error e => rw [hres] at hd; exact absurd hd (by simp)
    | ok sid =>
      rw [hres] at hd
      simp only [List.mem_map] at hd
      obtain ⟨item, _, rfl⟩ := hd
      rfl
  exact ⟨fun d hd => key none d hd, fun d hd => key (some "") d hd,
    fun d hd => key (some "root") d hd⟩

/-- SharePoint stub for the C9 theorems: one site, one item at the drive
root. -/
def gC9 : SPGraph :=
  { sites := some ⟨some [⟨some "s1"⟩]⟩
    children_at_root := fun _ => ⟨some [⟨some "d1", some "notes.txt", none, some 10, none⟩]⟩
    children_at_path := fun _ _ => ⟨some []⟩
    put_content := fun _ _ _ => none }

def docC9 : Document :=
  { id := some "d1", name := "notes.txt", path := "root"
    web_url := none, size := some 10, is_folder := false }

def docC9root : Document :=
  { id := some "d1", name := "notes.txt", path := "/"
    web_url := none, size := some 10, is_folder := false }

/-- C9 counterexample: listing with `folder_path="root"` yields a document
whose path is "root", not "/". -/
theorem list_documents_c9_counterexample :
    list_documents gC9 (some "root") none = [docC9] ∧
    docC9.path = "root" ∧
    ¬(∀ d ∈ list_documents gC9 (some "root") none, d.path = "/") := by
  refine ⟨by decide, rfl, ?_⟩
  intro h
  exact absurd (h docC9 (by decide)) (by decide)

/-- Witness for C9: the omitted-folder listing gives path "/", the "root"
listing gives path "root". -/
theorem list_documents_c9_witness :
    docC9root.path = "/" ∧ docC9.path = "root" :=
  ⟨(list_documents_c9 gC9 none).1 docC9root (by decide),
   (list_documents_c9 gC9 none).2.2 docC9 (by decide)⟩

/-! ### C8 — defaulted record fields -/

/-- Channels produced by one iteration of the aggregation loop always carry
a defaulted (non-null) id. -/
theorem perTeamChannels_id_defaulted
    (f : String → Except Unit (GraphResponse RawChannel)) (t : RawGroup)
    (ch : Channel) (h : ch ∈ perTeamChannels f t) : ∃ s, ch.id = some s := by
  unfold perTeamChannels at h
  cases hid : pyFalsy t.id with
  | true => rw [hid] at h; exact absurd h (by simp)
  | false =>
    rw [hid] at h
    simp only [Bool.false_eq_true, if_false] at h
    cases hco : f (pyOr t.id "") with
    | error e => rw [hco] at h; exact absurd h (by simp)
    | ok resp =>
      rw [hco] at h
      simp only [List.mem_map] at h
      obtain ⟨raw, _, rfl⟩ := h
      exact ⟨_, rfl⟩

/-- C8 amended: ids of users, channels, messages, listed documents and
tasks are always defaulted to a (possibly empty) string, never null; a
message's sender falls back to "Unknown" and its content to the empty
string when the body is absent — but when the body is present the content
is taken from it verbatim and may be null; and the id of the document
returned by `upload_document` is null exactly when the vendor's upload
response is present but carries no id (it is only defaulted to the empty
string when the whole response is absent). -/
theorem records_defaults_c8 :
    (∀ (fetch : Nat → GraphResponse RawUser) (limit : Nat),
      ∀ u ∈ list_users fetch limit, ∃ s, u.id = some s) ∧
    (∀ (fetch : String → Option RawUser) (uid : String) (user : User),
      get_user fetch uid = .ok user → ∃ s, user.id = some s) ∧
    (∀ (g : TeamsGraph) (tid : Option String) (chs : List Channel),
      list_channels g tid = .ok chs → ∀ ch ∈ chs, ∃ s, ch.id = some s) ∧
    (∀ (fetch : String → String → GraphResponse RawMessage) (cid : String)
      (limit : Nat) (tid : Option String) (msgs : List Message),
      get_messages fetch cid limit tid = .ok msgs →
        ∀ m ∈ msgs, ∃ s, m.id = some s) ∧
    (∀ (cid : String) (msg : RawMessage),
      (msg.from_ = none ∨ ∃ f, msg.from_ = some f ∧ f.user = none) →
      (mkMessage cid msg).sender = "Unknown") ∧
    (∀ (cid : String) (msg : RawMessage), msg.body = none →
      (mkMessage cid msg).content = some "") ∧
    (∀ (cid : String) (msg : RawMessage) (b : RawBody), msg.body = some b →
      (mkMessage cid msg).content = b.content) ∧
    (∀ (g : SPGraph) (fp sid : Option String),
      ∀ d ∈ list_documents g fp sid, ∃ s, d.id = some s) ∧
    (∀ (fetch : String → GraphResponse RawTask) (pid : Option String),
      ∀ t ∈ list_tasks fetch pid, ∃ s, t.id = some s) ∧
    (∀ (g : SPGraph) (n : String) (c : Bytes ⊕ String) (fp sid0 : Option String)
      (doc : Document), upload_document g n c fp sid0 = .ok doc → doc.id = none →
      ∃ sid r, resolveSiteId g sid0 = .ok sid ∧
        g.put_content sid (destPath fp n) (uploadBytes c) = some r ∧
        r.id = none) := by
  refine ⟨?_, ?_, ?_, ?_, ?_, ?_, ?_, ?_, ?_, ?_⟩
  · intro fetch limit u hu
    unfold list_users at hu
    simp only [List.mem_map] at hu
    obtain ⟨raw, _, rfl⟩ := hu
    exact ⟨_, rfl⟩
  · intro fetch uid user h
    unfold get_user at h
    cases hf : fetch uid with
    | none => rw [hf] at h; exact absurd h (by simp)
    | some raw =>
      rw [hf] at h
      simp only [Except.ok.injEq] at h
      rw [← h]
      exact ⟨_, rfl⟩
  · intro g tid chs h ch hch
    unfold list_channels at h
    cases htid : pyTruthy tid with
    | true =>
      rw [htid] at h
      simp only [if_true] at h
      cases hco : g.channels_of (pyOr tid "") with
      | error e => rw [hco] at h; exact absurd h (by simp)
      | ok resp =>
        rw [hco] at h
        simp only [Except.ok.injEq] at h
        rw [← h] at hch
        simp only [List.mem_map] at hch
        obtain ⟨raw, _, rfl⟩ := hch
        exact ⟨_, rfl⟩
    | false =>
      rw [htid] at h
      simp only [Bool.false_eq_true, if_false] at h
      cases hgr : g.groups_team_filtered with
      | error e => rw [hgr] at h; exact absurd h (by simp)
      | ok teams =>
        rw [hgr] at h
        simp only [Except.ok.injEq] at h
        rw [← h, listChannelsLoop_eq_flatMap] at hch
        simp only [List.nil_append, List.mem_flatMap] at hch
        obtain ⟨t, _, hmem⟩ := hch
        exact perTeamChannels_id_defaulted g.channels_of t ch hmem
  · intro fetch cid limit tid msgs h m hm
    unfold get_messages at h
    cases hfal : pyFalsy tid with
    | true => rw [hfal] at h; exact absurd h (by simp)
    | false =>
      rw [hfal] at h
      simp only [Bool.false_eq_true, if_false, Except.ok.injEq] at h
      rw [← h] at hm
      simp only [List.mem_map] at hm
      obtain ⟨raw, _, rfl⟩ := hm
      exact ⟨_, rfl⟩
  · intro cid msg h
    rcases h with h | ⟨f, hf, hu⟩ <;> simp [mkMessage, *]
  · intro cid msg h
    simp [mkMessage, h]
  · intro cid msg b h
    simp [mkMessage, h]
  · intro g fp sid d hd
    unfold list_documents at hd
    cases hres : resolveSiteId g sid with
    | error e => rw [hres] at hd; exact absurd hd (by simp)
    | ok s =>
      rw [hres] at hd
      simp only [List.mem_map] at hd
      obtain ⟨item, _, rfl⟩ := hd
      exact ⟨_, rfl⟩
  · intro fetch pid t ht
    unfold list_tasks at ht
    cases hfal : pyFalsy pid with
    | true => rw [hfal] at ht; exact absurd ht (by simp)
    | false =>
      rw [hfal] at ht
      simp only [Bool.false_eq_true, if_false, List.mem_map] at ht
      obtain ⟨raw, _, rfl⟩ := ht
      exact ⟨_, rfl⟩
  · intro g n c fp sid0 doc h hid
    unfold upload_document at h
    cases hres : resolveSiteId g sid0 with
    | error e => rw [hres] at h; exact absurd h (by simp)
    | ok sid =>
      rw [hres] at h
      simp only [Except.ok.injEq] at h
      cases hput : g.put_content sid (destPath fp n) (uploadBytes c) with
      | none =>
        rw [hput] at h
        rw [← h] at hid
        exact absurd hid (by simp)
      | some r =>
        rw [hput] at h
        rw [← h] at hid
        exact ⟨sid, r, rfl, hput, hid⟩

/-- Upload stub for the C8 counterexample: the vendor's upload response is
present but has no id. -/
def gC8 : SPGraph :=
  { sites := some ⟨some [⟨some "s1"⟩]⟩
    children_at_root := fun _ => ⟨some []⟩
    children_at_path := fun _ _ => ⟨some []⟩
    put_content := fun _ _ _ => some ⟨none, none, none, none, none⟩ }

/-- Messages whose body is present but carries no content. -/
def fetchC8 : String → String → GraphResponse RawMessage := fun _ _ =>
  ⟨some [⟨some "m1", some ⟨none⟩, none, none⟩]⟩

def docC8 : Document :=
  { id := none, name := "f", path := "f", web_url := none, size := none
    is_folder := false }

def msgC8 : Message :=
  { id := some "m1", content := none, sender := "Unknown", timestamp := ""
    channel_id := "c" }

/-- C8 counterexample: an upload whose vendor response has no id yields a
Document with a null id (not the empty string), and a message whose body is
present without content yields a Message whose content is null, not a
string. -/
theorem records_defaults_c8_counterexample :
    upload_document gC8 "f" (.inl []) none none = .ok docC8 ∧
    docC8.id = none ∧ docC8.id ≠ some "" ∧
    get_messages fetchC8 "c" 20 (some "t") = .ok [msgC8] ∧
    msgC8.content = none ∧ (∀ s : String, msgC8.content ≠ some s) :=
  ⟨by decide, rfl, by decide, by decide, rfl, fun s h => Option.noConfusion h⟩

/-- Users response for the C8 witness: a user the vendor returns with every
field omitted. -/
def fetchC8u : Nat → GraphResponse RawUser := fun _ =>
  ⟨some [⟨none, none, none, none, none⟩]⟩

def userC8 : User := { id := some "", display_name := "", email := none, department := none }

/-- Witness for C8: a vendor user without an id still yields a defaulted
(empty string) id; sender and content defaulting at concrete messages; and
the upload null-id case exhibits the vendor response that caused it. -/
theorem records_defaults_c8_witness :
    (∃ s, userC8.id = some s) ∧
    (mkMessage "c" ⟨some "m2", none, none, none⟩).sender = "Unknown" ∧
    (mkMessage "c" ⟨some "m2", none, none, none⟩).content = some "" ∧
    (mkMessage "c" ⟨some "m1", some ⟨none⟩, none, none⟩).content =
      (⟨none⟩ : RawBody).content ∧
    (∃ sid r, resolveSiteId gC8 none = .ok sid ∧
      gC8.put_content sid (destPath none "f") (uploadBytes (.inl [])) = some r ∧
      r.id = none) :=
  ⟨records_defaults_c8.1 fetchC8u 25 userC8 (by decide),
   records_defaults_c8.2.2.2.2.1 "c" ⟨some "m2", none, none, none⟩ (Or.inl rfl),
   records_defaults_c8.2.2.2.2.2.1 "c" ⟨some "m2", none, none, none⟩ rfl,
   records_defaults_c8.2.2.2.2.2.2.1 "c" ⟨some "m1", some ⟨none⟩, none, none⟩
     ⟨none⟩ rfl,
   records_defaults_c8.2.2.2.2.2.2.2.2.2 gC8 "f" (.inl []) none none docC8
     (by decide) rfl⟩

end M365
